import Mathlib

/-!  Verification of the Trusty KeyMint HAL channel transport
(`src/trusty/keymint/src/keymint_hal_main.rs`) and of the hwcryptolib
symmetric-operation session surface
(`src/trusty/hwcryptolib/src/hwcrypto_symmetric_operations.rs`,
`src/trusty/hwcryptolib/src/symmetric_dma_emitting_operation.rs`).

The Rust code is shallowly embedded: bytes are `Nat`, byte buffers are
`List Nat`, the raw tipc channel's behaviour is an explicit oracle
(`Tipc`), and a Rust call that can return, panic the process, or block
forever is a `RustOutcome`. -/

/-- Outcome of running a Rust function: a normal return, a panic
(`unimplemented!`, `unwrap_or_else(|e| panic!(..))`), or blocking forever
(a `recv` for which no message ever arrives). -/
inductive RustOutcome (α : Type) where
  | ret (a : α)
  | panicked (msg : String)
  | hangs
deriving DecidableEq

/-- `true` iff the call returned normally (with an `Ok` or `Err` value). -/
def RustOutcome.isRet {α : Type} : RustOutcome α → Bool
  | .ret _ => true
  | _ => false

/-- The binder exception codes relevant to this service.  The code under
`src/` only ever constructs `TRANSACTION_FAILED`; the other codes exist in
the binder API (e.g. for argument-validation errors) and are listed so that
"never returns an argument error" is a non-vacuous statement. -/
inductive ExceptionCode where
  | TRANSACTION_FAILED
  | ILLEGAL_ARGUMENT
  | UNSUPPORTED_OPERATION
  | BAD_PARCELABLE
deriving DecidableEq

/-- A `binder::Status` built by `binder::Status::new_exception(code, msg)`:
an exception code plus a message. -/
structure BinderStatus where
  exceptionCode : ExceptionCode
  message : String
deriving DecidableEq

/-- One response fragment from the trusted application.  Spec §6: "each
received frame carries a continuation indicator"; §9 leaves the byte-level
encoding of the indicator environment-specific, so a frame is modelled
abstractly as the indicator together with the payload bytes. -/
structure Fragment where
  more : Bool
  payload : List Nat
deriving DecidableEq

/-- The result of one `self.0.recv(&mut recv_buf)` call on the raw channel:
either a fragment is delivered or the read fails. -/
inductive RecvEvent where
  | frag (f : Fragment)
  | fail
deriving DecidableEq

/-- Oracle for the raw `trusty::TipcChannel`: whether the single `send` of
the request succeeds, and the successive results of the `recv` calls made
by the reassembly loop. -/
structure Tipc where
  sendOk : Bool
  rsps : List RecvEvent
deriving DecidableEq

/-- Modelled from the spec: `TipcChannel::handle_resp_received` is called by
`execute` (keymint_hal_main.rs line 76) but its body is not under `src/`.
Spec §6: "each received frame carries a continuation indicator; a response
is complete when a frame arrives without the continuation indicator set",
and §4.1: payloads are concatenated in receipt order.  With a received
frame modelled abstractly as `Fragment`, the function returns the pair
`(expect_more_msgs, current_rsp_content)`. -/
def handle_resp_received (recv_buf : Fragment) : Bool × List Nat :=
  (recv_buf.more, recv_buf.payload)

namespace TipcChannel

/-- `SerializedChannel::MAX_SIZE` for `TipcChannel`
(keymint_hal_main.rs line 43). -/
def MAX_SIZE : Nat := 4000

/-- The status returned when `self.0.send(serialized_req)` fails
(keymint_hal_main.rs lines 45-56). -/
def sendErrStatus : BinderStatus :=
  { exceptionCode := .TRANSACTION_FAILED
    message := "Failed to send the request via tipc channel" }

/-- The status returned when `self.0.recv(&mut recv_buf)` fails
(keymint_hal_main.rs lines 61-72). -/
def recvErrStatus : BinderStatus :=
  { exceptionCode := .TRANSACTION_FAILED
    message := "Failed to receive the response via tipc channel" }

/-- The `while expect_more_msgs` reassembly loop of `execute`
(keymint_hal_main.rs lines 57-84), consuming the successive `recv`
results; `full_rsp` is the accumulator `full_rsp.extend_from_slice(..)`
grows. -/
def recvLoop (full_rsp : List Nat) :
    List RecvEvent → RustOutcome (Except BinderStatus (List Nat))
  | [] => .hangs
  | .fail :: _ => .ret (.error recvErrStatus)
  | .frag f :: rest =>
    let r := handle_resp_received f
    let full := full_rsp ++ r.2
    if r.1 then recvLoop full rest else .ret (.ok full)

/-- `TipcChannel::execute` (keymint_hal_main.rs lines 44-85): one `send` of
the whole serialized request, then the reassembly loop.  The first
component records the frames passed to `self.0.send`, in order. -/
def execute (ch : Tipc) (serialized_req : List Nat) :
    List (List Nat) × RustOutcome (Except BinderStatus (List Nat)) :=
  ([serialized_req],
    if ch.sendOk then recvLoop [] ch.rsps else .ret (.error sendErrStatus))

end TipcChannel

/-- The startup connection in `main` (keymint_hal_main.rs lines 107-109):
`trusty::TipcChannel::connect(..).unwrap_or_else(|e| panic!(..))` — a
failed connection panics the process. -/
def connectToTa (connectOk : Bool) : RustOutcome Unit :=
  if connectOk then .ret () else
    .panicked "Failed to connect to Trusty Keymint TA"

/-- Whether the reassembly loop reaches a failing `recv` before a fragment
with the continuation indicator cleared. -/
def hitsFail : List RecvEvent → Bool
  | [] => false
  | .fail :: _ => true
  | .frag f :: rest => if (handle_resp_received f).1 then hitsFail rest else false

/-- A fragment sequence with the continuation indicator set on every
fragment but the last and cleared on the last: exactly a prefix the
reassembly loop consumes in full. -/
def completeSeq : List Fragment → Bool
  | [] => false
  | [f] => !f.more
  | f :: rest => f.more && completeSeq rest

/-! ### Serialization of exchanges on the shared channel

`main` (keymint_hal_main.rs lines 109-137) wraps the single `TipcChannel`
in `Arc<Mutex<..>>` and hands clones of it to all four service facades; a
facade locks the mutex and holds it for its whole `execute` exchange.  A
global trace of lock and channel actions is modelled, with the standard
mutex semantics: an action is legal only in the states the `Mutex` can
reach. -/

/-- One globally observable action: thread `t` acquires the channel mutex,
performs one channel operation (sends or receives one frame, recorded as
its bytes), or releases the mutex. -/
inductive LockAct where
  | acquire (t : Nat)
  | chanOp (t : Nat) (frame : List Nat)
  | release (t : Nat)
deriving DecidableEq

/-- Modelled from the spec: the Multiplexer (spec §4.1/§5) is realised by
`Arc<Mutex<TipcChannel>>` in `main` (keymint_hal_main.rs lines 109-137);
the callers that lock it per exchange are the service facades, which are
not under `src/`.  `mutexStep` is one step of the mutex semantics: the
lock is acquired only when free, and a channel operation or a release by
`t` is possible only while `t` holds the lock; `none` means the action
cannot occur. -/
def mutexStep (holder : Option Nat) : LockAct → Option (Option Nat)
  | .acquire t => if holder = none then some (some t) else none
  | .chanOp t _ => if holder = some t then some holder else none
  | .release t => if holder = some t then some none else none

/-- Runs a trace of actions from a given lock state; `none` if some action
of the trace cannot occur under the mutex semantics. -/
def mutexRun (holder : Option Nat) : List LockAct → Option (Option Nat)
  | [] => some holder
  | a :: rest =>
    match mutexStep holder a with
    | none => none
    | some h => mutexRun h rest

/-- A trace the mutex semantics permits, starting with the lock free. -/
def ValidTrace (tr : List LockAct) : Prop := (mutexRun none tr).isSome = true

instance (tr : List LockAct) : Decidable (ValidTrace tr) := by
  unfold ValidTrace; infer_instance

/-! ### Hwcryptolib symmetric-operation sessions -/

/-- Opaque key material handle (`HwCryptoKeyMaterial` AIDL parcelable);
never inspected by the code under `src/`. -/
structure HwCryptoKeyMaterial where
  keyBlob : List Nat
deriving DecidableEq

/-- Opaque operation parameters (`SymmetricOperationParameters` AIDL
parcelable); never inspected by the code under `src/`. -/
structure SymmetricOperationParameters where
  paramBlob : List Nat
deriving DecidableEq

/-- Opaque DMA buffer descriptors (`DmaOperationBuffers` AIDL parcelable);
never inspected by the code under `src/`. -/
structure DmaOperationBuffers where
  bufferBlob : List Nat
deriving DecidableEq

/-- `HalErrorCode` AIDL value, opaque here. -/
structure HalErrorCode where
  code : Int
deriving DecidableEq

/-- `BooleanResult` AIDL value, opaque here. -/
structure BooleanResult where
  value : Bool
deriving DecidableEq

/-- `DmaEmittingOperationResult` AIDL value, opaque here. -/
structure DmaEmittingOperationResult where
  raw : List Nat
deriving DecidableEq

/-- The unit struct `SymmetricDmaEmittingOperation`
(symmetric_dma_emitting_operation.rs line 30). -/
structure SymmetricDmaEmittingOperation where
  mk ::
deriving DecidableEq

namespace SymmetricDmaEmittingOperation

/-- `SymmetricDmaEmittingOperation::new_operation`
(symmetric_dma_emitting_operation.rs lines 33-39): unconditionally
`unimplemented!`, i.e. a panic, whatever the key, parameters and DMA
buffers; no session is ever created and no value is returned. -/
def new_operation (_key : HwCryptoKeyMaterial)
    (_parameters : SymmetricOperationParameters)
    (_dma_buffers : DmaOperationBuffers) :
    RustOutcome (Except BinderStatus DmaEmittingOperationResult) :=
  .panicked "SymmetricDmaEmittingOperation::new not implemented"

/-- `update` (symmetric_dma_emitting_operation.rs lines 45-47):
`unimplemented!`. -/
def update (_self : SymmetricDmaEmittingOperation) :
    RustOutcome (Except BinderStatus HalErrorCode) :=
  .panicked "update not implemented"

/-- `is_busy` (symmetric_dma_emitting_operation.rs lines 49-51):
`unimplemented!`. -/
def is_busy (_self : SymmetricDmaEmittingOperation) :
    RustOutcome (Except BinderStatus BooleanResult) :=
  .panicked "is_busy not implemented"

/-- `wait_for_completion` (symmetric_dma_emitting_operation.rs lines
53-55): `unimplemented!`. -/
def wait_for_completion (_self : SymmetricDmaEmittingOperation) :
    RustOutcome (Except BinderStatus HalErrorCode) :=
  .panicked "wait_for_completion not implemented"

/-- `finish` (symmetric_dma_emitting_operation.rs lines 57-59):
`unimplemented!`. -/
def finish (_self : SymmetricDmaEmittingOperation) :
    RustOutcome (Except BinderStatus HalErrorCode) :=
  .panicked "finish not implemented"

/-- `abort` (symmetric_dma_emitting_operation.rs lines 61-63):
`unimplemented!`. -/
def abort (_self : SymmetricDmaEmittingOperation) :
    RustOutcome (Except BinderStatus Unit) :=
  .panicked "abort not implemented"

end SymmetricDmaEmittingOperation

/-- Session states of the operation state machine (spec §4.2). -/
inductive SessionState where
  | Created
  | Active
  | Busy
  | Completed
  | Aborted
  | Failed
deriving DecidableEq, Fintype

/-- The three terminal states of spec §4.2. -/
def SessionState.isTerminal : SessionState → Bool
  | .Completed => true
  | .Aborted => true
  | .Failed => true
  | _ => false

/-- The error taxonomy of spec §7. -/
inductive HalError where
  | TransportFailure
  | InvalidParameters
  | IllegalStateTransition
  | Unimplemented
deriving DecidableEq

/-- Result of a `begin` variant: a session handle whose session is in the
given state, or an error together with the number of channel exchanges
performed before the error was detected. -/
inductive BeginResult where
  | session (st : SessionState)
  | err (e : HalError) (exchangesBefore : Nat)
deriving DecidableEq

/-- Modelled from the spec: `SymmetricEmittingOperation::new_operation`
(src/trusty/hwcryptolib/src/symmetric_emitting_operation.rs, the delegate
of `begin`) is not under `src/`.  Spec §4.2/§7/§8: for well-formed
(key, parameters) it allocates a new session in `Active`; otherwise it
returns `InvalidParameters`, detected before any channel exchange, and the
session is never created.  Well-formedness of the opaque (key, parameters)
pair is taken as a parameter. -/
def SymmetricEmittingOperation.new_operation (wellFormed : Bool) : BeginResult :=
  if wellFormed then .session .Active else .err .InvalidParameters 0

/-- Modelled from the spec: `SymmetricAeadOperation::new_operation`
(src/trusty/hwcryptolib/src/symmetric_aead_operation.rs, the delegate of
`begin_aead`) is not under `src/`; same contract as
`SymmetricEmittingOperation.new_operation`. -/
def SymmetricAeadOperation.new_operation (wellFormed : Bool) : BeginResult :=
  if wellFormed then .session .Active else .err .InvalidParameters 0

/-- Modelled from the spec: `SymmetricDmaAeadOperation::new_operation`
(src/trusty/hwcryptolib/src/symmetric_dma_aead_operation.rs, the delegate
of `begin_dma_aead`) is not under `src/`; same contract as
`SymmetricEmittingOperation.new_operation`. -/
def SymmetricDmaAeadOperation.new_operation (wellFormed : Bool) : BeginResult :=
  if wellFormed then .session .Active else .err .InvalidParameters 0

/-- The unit struct `HwCryptoKeySymmetricOperations`
(hwcrypto_symmetric_operations.rs line 38). -/
structure HwCryptoKeySymmetricOperations where
  mk ::
deriving DecidableEq

namespace HwCryptoKeySymmetricOperations

/-- `begin` (hwcrypto_symmetric_operations.rs lines 56-62): delegates to
`SymmetricEmittingOperation::new_operation`; the `wellFormed` parameter is
the validity judgment of the spec-modelled delegate. -/
def begin (_self : HwCryptoKeySymmetricOperations)
    (_key : HwCryptoKeyMaterial) (_parameters : SymmetricOperationParameters)
    (wellFormed : Bool) : BeginResult :=
  SymmetricEmittingOperation.new_operation wellFormed

/-- `begin_aead` (hwcrypto_symmetric_operations.rs lines 64-70): delegates
to `SymmetricAeadOperation::new_operation`. -/
def begin_aead (_self : HwCryptoKeySymmetricOperations)
    (_key : HwCryptoKeyMaterial) (_parameters : SymmetricOperationParameters)
    (wellFormed : Bool) : BeginResult :=
  SymmetricAeadOperation.new_operation wellFormed

/-- `begin_dma` (hwcrypto_symmetric_operations.rs lines 72-79): delegates
to `SymmetricDmaEmittingOperation::new_operation`, which is under `src/`
and panics unconditionally. -/
def begin_dma (_self : HwCryptoKeySymmetricOperations)
    (key : HwCryptoKeyMaterial) (parameters : SymmetricOperationParameters)
    (dma_buffers : DmaOperationBuffers) :
    RustOutcome (Except BinderStatus DmaEmittingOperationResult) :=
  SymmetricDmaEmittingOperation.new_operation key parameters dma_buffers

/-- `begin_dma_aead` (hwcrypto_symmetric_operations.rs lines 81-88):
delegates to `SymmetricDmaAeadOperation::new_operation`. -/
def begin_dma_aead (_self : HwCryptoKeySymmetricOperations)
    (_key : HwCryptoKeyMaterial) (_parameters : SymmetricOperationParameters)
    (_dma_buffers : DmaOperationBuffers) (wellFormed : Bool) : BeginResult :=
  SymmetricDmaAeadOperation.new_operation wellFormed

end HwCryptoKeySymmetricOperations

/-- Modelled from the spec: the session state machine of spec §4.2 for the
variants whose implementations are not under `src/`.  `update` requires
`Active` and may move the session to `Busy` while work is outstanding;
`goesBusy` is the environment's choice of whether work remains
outstanding.  On any other state it is an illegal transition. -/
def sm_update (goesBusy : Bool) : SessionState → Except HalError SessionState
  | .Active => .ok (if goesBusy then .Busy else .Active)
  | _ => .error .IllegalStateTransition

/-- Modelled from the spec: `is_busy` (spec §4.2/§8) is a non-blocking
query legal in any non-terminal state, answering whether the state is
`Busy`; on a terminal session it fails rather than returning stale
state. -/
def sm_is_busy (s : SessionState) : Except HalError Bool :=
  if s.isTerminal then .error .IllegalStateTransition else .ok (s == .Busy)

/-- Modelled from the spec: `wait_for_completion` (spec §4.2) blocks while
`Busy` and returns once the state becomes `Active` or terminal; `result`
is the environment's choice of that post-wait state.  Legal only in `Busy`
or `Active`. -/
def sm_wait_for_completion (result : SessionState) :
    SessionState → Except HalError SessionState
  | .Busy => .ok result
  | .Active => .ok .Active
  | _ => .error .IllegalStateTransition

/-- Modelled from the spec: `finish` (spec §4.2) requires `Active` (not
`Busy`), finalizes the operation and moves the session to `Completed`. -/
def sm_finish : SessionState → Except HalError SessionState
  | .Active => .ok .Completed
  | _ => .error .IllegalStateTransition

/-- Modelled from the spec: `abort` (spec §4.2) is legal in any
non-terminal state, releases the session's resources and moves it to
`Aborted`. -/
def sm_abort (s : SessionState) : Except HalError SessionState :=
  if s.isTerminal then .error .IllegalStateTransition else .ok .Aborted

/-- Whether an action is a channel operation performed by thread `a`. -/
def LockAct.isChanOpBy (a : Nat) : LockAct → Bool
  | .chanOp t _ => t == a
  | _ => false

/-! ## Lemmas about the reassembly loop -/

/-- Running the reassembly loop over a fragment sequence whose continuation
indicator is set on every fragment but the last and cleared on the last
consumes exactly that sequence and appends its payloads to the
accumulator, whatever events follow. -/
theorem recvLoop_complete (front : List Fragment) (flast : Fragment)
    (extra : List RecvEvent) (acc : List Nat)
    (hfront : ∀ f ∈ front, f.more = true) (hlast : flast.more = false) :
    TipcChannel.recvLoop acc ((front ++ [flast]).map RecvEvent.frag ++ extra) =
      .ret (.ok (acc ++ ((front ++ [flast]).map Fragment.payload).flatten)) := by
  induction front generalizing acc with
  | nil =>
    simp [TipcChannel.recvLoop, handle_resp_received, hlast]
  | cons f fs ih =>
    have hf : f.more = true := hfront f (by simp)
    have hrest : ∀ g ∈ fs, g.more = true := fun g hg => hfront g (by simp [hg])
    have h2 := ih (acc ++ f.payload) hrest
    simp [TipcChannel.recvLoop, handle_resp_received, hf]
    simpa using h2

/-- If the reassembly loop hits a failing `recv` with every earlier
fragment carrying the continuation indicator, it returns the receive
transport error. -/
theorem recvLoop_fail (pre : List Fragment) (rest : List RecvEvent)
    (acc : List Nat) (hpre : ∀ f ∈ pre, f.more = true) :
    TipcChannel.recvLoop acc (pre.map RecvEvent.frag ++ RecvEvent.fail :: rest) =
      .ret (.error TipcChannel.recvErrStatus) := by
  induction pre generalizing acc with
  | nil => simp [TipcChannel.recvLoop]
  | cons f fs ih =>
    have hf : f.more = true := hpre f (by simp)
    have hrest : ∀ g ∈ fs, g.more = true := fun g hg => hpre g (by simp [hg])
    have h2 := ih (acc ++ f.payload) hrest
    simp [TipcChannel.recvLoop, handle_resp_received, hf]
    simpa using h2

/-- If the reassembly loop returns an `Ok`, the events begin with a
complete fragment sequence and the result is the accumulator followed by
the concatenation of exactly those payloads. -/
theorem recvLoop_ok_inv (evs : List RecvEvent) (acc r : List Nat)
    (h : TipcChannel.recvLoop acc evs = .ret (.ok r)) :
    ∃ fs rest, evs = fs.map RecvEvent.frag ++ rest ∧ completeSeq fs = true ∧
      r = acc ++ (fs.map Fragment.payload).flatten := by
  induction evs generalizing acc with
  | nil => simp [TipcChannel.recvLoop] at h
  | cons e rest ih =>
    cases e with
    | fail => simp [TipcChannel.recvLoop] at h
    | frag f =>
      by_cases hm : f.more
      · have h2 : TipcChannel.recvLoop (acc ++ f.payload) rest = .ret (.ok r) := by
          simpa [TipcChannel.recvLoop, handle_resp_received, hm] using h
        obtain ⟨fs, rest2, heq, hcs, hr⟩ := ih (acc ++ f.payload) h2
        refine ⟨f :: fs, rest2, by simp [heq], ?_, by simp [hr]⟩
        cases fs with
        | nil => simp [completeSeq] at hcs
        | cons g gs => simp [completeSeq, hm]; simpa [completeSeq] using hcs
      · have hr : r = acc ++ f.payload := by
          have := h
          simp [TipcChannel.recvLoop, handle_resp_received, hm] at this
          exact this.symm
        exact ⟨[f], rest, by simp, by simp [completeSeq, hm], by simp [hr]⟩

/-- The reassembly loop returns an error exactly when it reaches a failing
`recv` before the response is complete. -/
theorem recvLoop_error_iff (evs : List RecvEvent) (acc : List Nat) :
    (∃ e, TipcChannel.recvLoop acc evs = .ret (.error e)) ↔ hitsFail evs = true := by
  induction evs generalizing acc with
  | nil => simp [TipcChannel.recvLoop, hitsFail]
  | cons e rest ih =>
    cases e with
    | fail => simp [TipcChannel.recvLoop, hitsFail]
    | frag f =>
      by_cases hm : f.more
      · simpa [TipcChannel.recvLoop, hitsFail, handle_resp_received, hm] using
          ih (acc ++ f.payload)
      · simp [TipcChannel.recvLoop, hitsFail, handle_resp_received, hm]

/-- The only error the reassembly loop ever returns is the receive
transport error. -/
theorem recvLoop_error_code (evs : List RecvEvent) (acc : List Nat)
    (e : BinderStatus) (h : TipcChannel.recvLoop acc evs = .ret (.error e)) :
    e = TipcChannel.recvErrStatus := by
  induction evs generalizing acc with
  | nil => simp [TipcChannel.recvLoop] at h
  | cons ev rest ih =>
    cases ev with
    | fail =>
      simp [TipcChannel.recvLoop] at h
      exact h.symm
    | frag f =>
      by_cases hm : f.more
      · exact ih (acc ++ f.payload)
          (by simpa [TipcChannel.recvLoop, handle_resp_received, hm] using h)
      · simp [TipcChannel.recvLoop, handle_resp_received, hm] at h

/-- The reassembly loop never panics: every failure is a returned error. -/
theorem recvLoop_not_panicked (evs : List RecvEvent) (acc : List Nat)
    (m : String) :
    TipcChannel.recvLoop acc evs ≠ RustOutcome.panicked m := by
  induction evs generalizing acc with
  | nil => simp [TipcChannel.recvLoop]
  | cons e rest ih =>
    cases e with
    | fail => simp [TipcChannel.recvLoop]
    | frag f =>
      by_cases hm : f.more
      · simpa [TipcChannel.recvLoop, handle_resp_received, hm] using
          ih (acc ++ f.payload)
      · simp [TipcChannel.recvLoop, handle_resp_received, hm]

/-! ## Claims about the channel adapter -/

/-- Claim C1: for every response received as a sequence of fragments
F1..Fn with the continuation indicator set on F1..Fn-1 and cleared on Fn,
`execute` returns exactly the concatenation of the fragment payloads in
receipt order, stopping after the first fragment whose indicator is
cleared (later events `extra` are never consumed), including n = 1
(`front = []`). -/
theorem execute_reassembles_fragments
    (ch : Tipc) (req : List Nat) (front : List Fragment) (flast : Fragment)
    (extra : List RecvEvent)
    (hsend : ch.sendOk = true)
    (hrsps : ch.rsps = (front ++ [flast]).map RecvEvent.frag ++ extra)
    (hfront : ∀ f ∈ front, f.more = true)
    (hlast : flast.more = false) :
    (TipcChannel.execute ch req).2 =
      .ret (.ok (((front ++ [flast]).map Fragment.payload).flatten)) := by
  have h := recvLoop_complete front flast extra [] hfront hlast
  simp only [TipcChannel.execute, hsend, if_true]
  rw [hrsps]
  simpa using h

/-- Claim C1 witness: a concrete five-fragment exchange (with a trailing
event that is never consumed) reassembles to the payload concatenation. -/
theorem execute_reassembles_fragments_witness :
    (TipcChannel.execute
        ⟨true,
          [RecvEvent.frag ⟨true, [1]⟩, RecvEvent.frag ⟨true, [2, 3]⟩,
            RecvEvent.frag ⟨true, []⟩, RecvEvent.frag ⟨true, [4]⟩,
            RecvEvent.frag ⟨false, [5]⟩, RecvEvent.fail]⟩ [9]).2 =
      RustOutcome.ret (Except.ok [1, 2, 3, 4, 5]) := by
  have h := execute_reassembles_fragments
    ⟨true,
      [RecvEvent.frag ⟨true, [1]⟩, RecvEvent.frag ⟨true, [2, 3]⟩,
        RecvEvent.frag ⟨true, []⟩, RecvEvent.frag ⟨true, [4]⟩,
        RecvEvent.frag ⟨false, [5]⟩, RecvEvent.fail]⟩ [9]
    [⟨true, [1]⟩, ⟨true, [2, 3]⟩, ⟨true, []⟩, ⟨true, [4]⟩] ⟨false, [5]⟩
    [RecvEvent.fail] rfl (by decide) (by decide) rfl
  simpa using h

/-- Claim C2: a failing channel write aborts the exchange with the send
transport error; a failing channel read (after any run of
continuation-marked fragments) aborts it with the receive transport error;
and `execute` returns an `Ok` only when the received events begin with a
complete fragment sequence, whose full payload concatenation — never a
strict prefix of the fragments received — is the result. -/
theorem execute_all_or_nothing (ch : Tipc) (req : List Nat) :
    (ch.sendOk = false →
      (TipcChannel.execute ch req).2 =
        .ret (.error TipcChannel.sendErrStatus)) ∧
    (∀ (pre : List Fragment) (rest : List RecvEvent), ch.sendOk = true →
      ch.rsps = pre.map RecvEvent.frag ++ RecvEvent.fail :: rest →
      (∀ f ∈ pre, f.more = true) →
      (TipcChannel.execute ch req).2 =
        .ret (.error TipcChannel.recvErrStatus)) ∧
    (∀ r, (TipcChannel.execute ch req).2 = .ret (.ok r) →
      ∃ fs rest, ch.rsps = fs.map RecvEvent.frag ++ rest ∧
        completeSeq fs = true ∧ r = (fs.map Fragment.payload).flatten) := by
  refine ⟨fun hs => by simp [TipcChannel.execute, hs], ?_, ?_⟩
  · intro pre rest hs hr hpre
    simp [TipcChannel.execute, hs, hr, recvLoop_fail pre rest [] hpre]
  · intro r hok
    by_cases hs : ch.sendOk
    · have h2 : TipcChannel.recvLoop [] ch.rsps = .ret (.ok r) := by
        simpa [TipcChannel.execute, hs] using hok
      obtain ⟨fs, rest, heq, hcs, hr⟩ := recvLoop_ok_inv ch.rsps [] r h2
      exact ⟨fs, rest, heq, hcs, by simpa using hr⟩
    · simp [TipcChannel.execute, hs] at hok

/-- Claim C2 witness: a read failure after one continuation-marked
fragment yields the receive transport error — the fragment received so far
is not returned. -/
theorem execute_all_or_nothing_witness :
    (TipcChannel.execute
        ⟨true, [RecvEvent.frag ⟨true, [7]⟩, RecvEvent.fail]⟩ [1]).2 =
      RustOutcome.ret (Except.error TipcChannel.recvErrStatus) := by
  have h := execute_all_or_nothing
    ⟨true, [RecvEvent.frag ⟨true, [7]⟩, RecvEvent.fail]⟩ [1]
  exact h.2.1 [⟨true, [7]⟩] [] rfl rfl (by decide)

/-- Claim C8: the channel adapter's maximum single-fragment payload size is
the protocol constant 4000 bytes, and under `execute`'s precondition — a
non-empty request of at most that size — the request goes to the trusted
application as one frame (one or more), every sent frame non-empty and no
larger than the limit. -/
theorem execute_fragment_size_limit :
    TipcChannel.MAX_SIZE = 4000 ∧
    ∀ (ch : Tipc) (req : List Nat), req ≠ [] →
      req.length ≤ TipcChannel.MAX_SIZE →
      1 ≤ (TipcChannel.execute ch req).1.length ∧
      ∀ frame ∈ (TipcChannel.execute ch req).1,
        frame ≠ [] ∧ frame.length ≤ TipcChannel.MAX_SIZE := by
  refine ⟨rfl, fun ch req hne hle => ⟨by simp [TipcChannel.execute], ?_⟩⟩
  intro frame hf
  have hfr : frame = req := by simpa [TipcChannel.execute] using hf
  rw [hfr]
  exact ⟨hne, hle⟩

/-- Claim C8 witness: a concrete request of one byte satisfies the
precondition, is sent as exactly one frame, and that frame respects the
4000-byte limit. -/
theorem execute_fragment_size_limit_witness :
    TipcChannel.MAX_SIZE = 4000 ∧
    1 ≤ (TipcChannel.execute ⟨true, []⟩ [1]).1.length ∧
    ([1] : List Nat) ≠ [] ∧ ([1] : List Nat).length ≤ TipcChannel.MAX_SIZE := by
  have h := execute_fragment_size_limit.2 ⟨true, []⟩ [1] (by decide) (by decide)
  exact ⟨execute_fragment_size_limit.1, h.1,
    h.2 [1] (by simp [TipcChannel.execute])⟩

/-- Claim C9: a channel transport failure is process-fatal only at the
startup connection (`connect(..).unwrap_or_else(|e| panic!(..))` in
`main`); inside an `execute` exchange it never panics the process — the
exchange ends with a transport error returned to the caller. -/
theorem transport_failure_scope :
    (connectToTa false =
      RustOutcome.panicked "Failed to connect to Trusty Keymint TA") ∧
    (connectToTa true = RustOutcome.ret ()) ∧
    (∀ (ch : Tipc) (req : List Nat) (m : String),
      (TipcChannel.execute ch req).2 ≠ RustOutcome.panicked m) ∧
    (∀ (ch : Tipc) (req : List Nat), ch.sendOk = false →
      (TipcChannel.execute ch req).2 =
        .ret (.error TipcChannel.sendErrStatus)) := by
  refine ⟨rfl, rfl, ?_, fun ch req hs => by simp [TipcChannel.execute, hs]⟩
  intro ch req m
  by_cases hs : ch.sendOk
  · simpa [TipcChannel.execute, hs] using recvLoop_not_panicked ch.rsps [] m
  · simp [TipcChannel.execute, hs]

/-- Claim C9 witness: a concrete failed send inside an exchange yields a
returned transport error, not a process panic. -/
theorem transport_failure_scope_witness :
    (TipcChannel.execute ⟨false, []⟩ [2]).2 =
      RustOutcome.ret (Except.error TipcChannel.sendErrStatus) :=
  transport_failure_scope.2.2.2 ⟨false, []⟩ [2] rfl

/-- Claim C10: `execute` validates nothing: whatever the request — empty
or larger than the 4000-byte limit — it is passed unchanged to a single
channel send, `execute` returns an error exactly when the send fails or
the reassembly loop reaches a failing receive, and every error it returns
carries `TRANSACTION_FAILED`, never an argument-validation code. -/
theorem execute_no_input_validation (ch : Tipc) (req : List Nat) :
    (TipcChannel.execute ch req).1 = [req] ∧
    ((∃ e, (TipcChannel.execute ch req).2 = RustOutcome.ret (Except.error e)) ↔
      (ch.sendOk = false ∨ hitsFail ch.rsps = true)) ∧
    (∀ e, (TipcChannel.execute ch req).2 = RustOutcome.ret (Except.error e) →
      e.exceptionCode = ExceptionCode.TRANSACTION_FAILED) := by
  refine ⟨rfl, ?_, ?_⟩
  · cases hsb : ch.sendOk with
    | false => simp [TipcChannel.execute, hsb]
    | true => simp [TipcChannel.execute, hsb, recvLoop_error_iff]
  · intro e he
    cases hsb : ch.sendOk with
    | false =>
      have h2 : e = TipcChannel.sendErrStatus := by
        have := he
        simp [TipcChannel.execute, hsb] at this
        exact this.symm
      rw [h2]
      rfl
    | true =>
      have h2 : TipcChannel.recvLoop [] ch.rsps =
          RustOutcome.ret (Except.error e) := by
        simpa [TipcChannel.execute, hsb] using he
      rw [recvLoop_error_code ch.rsps [] e h2]
      rfl

/-- Claim C10 witness: the empty request is still sent unchanged as the
single frame, and a concrete failing receive produces an error whose code
is `TRANSACTION_FAILED`. -/
theorem execute_no_input_validation_witness :
    (TipcChannel.execute ⟨true, [RecvEvent.fail]⟩ []).1 = [([] : List Nat)] ∧
    TipcChannel.recvErrStatus.exceptionCode =
      ExceptionCode.TRANSACTION_FAILED := by
  have h := execute_no_input_validation ⟨true, [RecvEvent.fail]⟩ []
  exact ⟨h.1, h.2.2 TipcChannel.recvErrStatus
    (by simp [TipcChannel.execute, TipcChannel.recvLoop])⟩

/-! ## Claims about exchange serialization -/

/-- Running a trace decomposes over concatenation. -/
theorem mutexRun_append (u v : List LockAct) (h : Option Nat) :
    mutexRun h (u ++ v) =
      (mutexRun h u).bind (fun h2 => mutexRun h2 v) := by
  induction u generalizing h with
  | nil => simp [mutexRun]
  | cons a u ih =>
    cases hs : mutexStep h a with
    | none => simp [mutexRun, hs]
    | some h2 => simp [mutexRun, hs, ih h2]

/-- While thread `a` holds the channel mutex, every action that can occur
before `a` releases it is a channel operation by `a` itself: no other
thread can acquire, operate, or release. -/
theorem mutex_held_segment (a : Nat) (tail : List LockAct) :
    ∀ mid : List LockAct,
      (mutexRun (some a) (mid ++ tail)).isSome = true →
      (∀ x ∈ mid, x ≠ LockAct.release a) →
      ∀ x ∈ mid, x.isChanOpBy a = true := by
  intro mid
  induction mid with
  | nil => intro _ _ x hx; simp at hx
  | cons act mid ih =>
    intro hvalid hnorel x hx
    cases act with
    | acquire t =>
      simp [mutexRun, mutexStep] at hvalid
    | release t =>
      rcases eq_or_ne t a with rfl | ht
      · exact absurd rfl (hnorel (LockAct.release t) (List.mem_cons_self _ _))
      · have hstep : mutexStep (some a) (LockAct.release t) = none := by
          simp [mutexStep, (Ne.symm ht)]
        simp [mutexRun, hstep] at hvalid
    | chanOp t fr =>
      rcases eq_or_ne t a with rfl | ht
      · have hrun : (mutexRun (some t) (mid ++ tail)).isSome = true := by
          simpa [mutexRun, mutexStep] using hvalid
        rcases List.mem_cons.mp hx with rfl | hx2
        · simp [LockAct.isChanOpBy]
        · exact ih hrun (fun y hy => hnorel y (List.mem_cons_of_mem _ hy)) x hx2
      · have hstep : mutexStep (some a) (LockAct.chanOp t fr) = none := by
          simp [mutexStep, (Ne.symm ht)]
        simp [mutexRun, hstep] at hvalid

/-- Claim C3: in any trace the channel mutex admits, the segment between
one caller's `acquire` and its matching `release` — i.e. one full
`execute` exchange, send through last receive — contains only that
caller's channel operations: the frames of two concurrent exchanges never
interleave, and a second caller's frames can only be observed after the
first caller's response is fully drained and the lock released. -/
theorem exchanges_never_interleave
    (pre mid post : List LockAct) (a : Nat)
    (hvalid : ValidTrace
      (pre ++ LockAct.acquire a :: (mid ++ LockAct.release a :: post)))
    (hnorel : ∀ x ∈ mid, x ≠ LockAct.release a) :
    ∀ x ∈ mid, x.isChanOpBy a = true := by
  unfold ValidTrace at hvalid
  rw [mutexRun_append] at hvalid
  cases hp : mutexRun none pre with
  | none => rw [hp] at hvalid; simp at hvalid
  | some h0 =>
    rw [hp] at hvalid
    cases h0 with
    | some b =>
      simp [mutexRun, mutexStep] at hvalid
    | none =>
      have hrun : (mutexRun (some a)
          (mid ++ LockAct.release a :: post)).isSome = true := by
        simpa [mutexRun, mutexStep] using hvalid
      exact mutex_held_segment a (LockAct.release a :: post) mid hrun hnorel

/-- Claim C3 witness: in a concrete valid trace with two callers, the
action inside the first caller's exchange is a channel operation of that
caller. -/
theorem exchanges_never_interleave_witness :
    (LockAct.chanOp 0 [1]).isChanOpBy 0 = true := by
  have h := exchanges_never_interleave []
    [LockAct.chanOp 0 [1], LockAct.chanOp 0 [2]]
    [LockAct.acquire 1, LockAct.chanOp 1 [3], LockAct.release 1] 0
    (by decide) (by decide)
  exact h (LockAct.chanOp 0 [1]) (by simp)

/-! ## Claims about the symmetric-operation sessions -/

/-- Claim C4 counterexample: at a concrete (key, parameters, buffers)
input, `begin_dma` panics (`unimplemented!`) — it returns neither a
session handle in `Active` nor an `InvalidParameters` error, refuting the
claimed behaviour for the `begin_dma` variant whichever side of the
valid/invalid split this input falls on. -/
theorem begin_dma_panics_counterexample :
    HwCryptoKeySymmetricOperations.begin_dma HwCryptoKeySymmetricOperations.mk
        ⟨[0]⟩ ⟨[0]⟩ ⟨[0]⟩ =
      RustOutcome.panicked "SymmetricDmaEmittingOperation::new not implemented" ∧
    RustOutcome.isRet (HwCryptoKeySymmetricOperations.begin_dma
        HwCryptoKeySymmetricOperations.mk ⟨[0]⟩ ⟨[0]⟩ ⟨[0]⟩) = false :=
  ⟨rfl, rfl⟩

/-- Claim C4 (amended): `begin`, `begin_aead` and `begin_dma_aead` —
whose delegate constructors are modelled from the spec, their
implementations not being under `src/` — return a session handle in
`Active` for every well-formed input and an `InvalidParameters` error,
detected before any channel exchange and creating no session, for every
ill-formed one; `begin_dma`, whose delegate is under `src/`, instead
panics (`unimplemented!`) for every input, returning neither. -/
theorem begin_variants_amended (s : HwCryptoKeySymmetricOperations)
    (key : HwCryptoKeyMaterial) (params : SymmetricOperationParameters)
    (bufs : DmaOperationBuffers) :
    (∀ wf, wf = true →
      s.begin key params wf = .session .Active ∧
      s.begin_aead key params wf = .session .Active ∧
      s.begin_dma_aead key params bufs wf = .session .Active) ∧
    (∀ wf, wf = false →
      s.begin key params wf = .err .InvalidParameters 0 ∧
      s.begin_aead key params wf = .err .InvalidParameters 0 ∧
      s.begin_dma_aead key params bufs wf = .err .InvalidParameters 0) ∧
    s.begin_dma key params bufs =
      RustOutcome.panicked "SymmetricDmaEmittingOperation::new not implemented" := by
  refine ⟨?_, ?_, rfl⟩
  · rintro wf rfl
    exact ⟨rfl, rfl, rfl⟩
  · rintro wf rfl
    exact ⟨rfl, rfl, rfl⟩

/-- Claim C4 (amended) witness: a concrete well-formed `begin` yields an
`Active` session and a concrete ill-formed one yields `InvalidParameters`
with zero prior exchanges. -/
theorem begin_variants_amended_witness :
    HwCryptoKeySymmetricOperations.begin HwCryptoKeySymmetricOperations.mk
        ⟨[0]⟩ ⟨[0]⟩ true = BeginResult.session SessionState.Active ∧
    HwCryptoKeySymmetricOperations.begin HwCryptoKeySymmetricOperations.mk
        ⟨[0]⟩ ⟨[0]⟩ false = BeginResult.err HalError.InvalidParameters 0 := by
  have h := begin_variants_amended HwCryptoKeySymmetricOperations.mk
    ⟨[0]⟩ ⟨[0]⟩ ⟨[0]⟩
  exact ⟨(h.1 true rfl).1, (h.2.1 false rfl).1⟩

/-- Claim C5 counterexample: invoking the stubbed `update` on the concrete
handle panics (`unimplemented!`) instead of returning an `Unimplemented`
error — the call crashes rather than reporting an error value. -/
theorem stub_update_panics_counterexample :
    SymmetricDmaEmittingOperation.update SymmetricDmaEmittingOperation.mk =
      RustOutcome.panicked "update not implemented" ∧
    RustOutcome.isRet (SymmetricDmaEmittingOperation.update
      SymmetricDmaEmittingOperation.mk) = false :=
  ⟨rfl, rfl⟩

/-- Claim C5 (amended): every placeholder operation of the DMA-emitting
variant is reported distinctly — each panics with a message naming the
unimplemented operation — and none is silently ignored; but they panic
(`unimplemented!`) rather than returning an `Unimplemented` error, and no
state machine backs these stubbed paths. -/
theorem stub_operations_panic_distinctly :
    (∀ key params bufs,
      SymmetricDmaEmittingOperation.new_operation key params bufs =
        RustOutcome.panicked
          "SymmetricDmaEmittingOperation::new not implemented") ∧
    (∀ s, SymmetricDmaEmittingOperation.update s =
      RustOutcome.panicked "update not implemented") ∧
    (∀ s, SymmetricDmaEmittingOperation.is_busy s =
      RustOutcome.panicked "is_busy not implemented") ∧
    (∀ s, SymmetricDmaEmittingOperation.wait_for_completion s =
      RustOutcome.panicked "wait_for_completion not implemented") ∧
    (∀ s, SymmetricDmaEmittingOperation.finish s =
      RustOutcome.panicked "finish not implemented") ∧
    (∀ s, SymmetricDmaEmittingOperation.abort s =
      RustOutcome.panicked "abort not implemented") :=
  ⟨fun _ _ _ => rfl, fun _ => rfl, fun _ => rfl, fun _ => rfl,
    fun _ => rfl, fun _ => rfl⟩

/-- Claim C6: in the session state machine (modelled from the spec for the
variants whose implementations are not under `src/`; the DMA-emitting stub
under `src/` never creates a session, so no terminal session of it
exists), every operation other than `abort` — `update`, `is_busy`,
`wait_for_completion`, `finish` — on a session in a terminal state fails
with `IllegalStateTransition` rather than being ignored; and a successful
`finish` or `abort` leaves the session terminal, so every subsequent
non-`abort` operation on its handle fails. -/
theorem terminal_session_ops_fail (goesBusy : Bool) (w : SessionState) :
    (∀ s : SessionState, s.isTerminal = true →
      sm_update goesBusy s = .error .IllegalStateTransition ∧
      sm_is_busy s = .error .IllegalStateTransition ∧
      sm_wait_for_completion w s = .error .IllegalStateTransition ∧
      sm_finish s = .error .IllegalStateTransition) ∧
    (∀ s s2 : SessionState, sm_finish s = .ok s2 → s2.isTerminal = true) ∧
    (∀ s s2 : SessionState, sm_abort s = .ok s2 → s2.isTerminal = true) := by
  refine ⟨?_, ?_, ?_⟩
  · intro s hterm
    cases s <;> simp_all [SessionState.isTerminal, sm_update, sm_is_busy,
      sm_wait_for_completion, sm_finish]
  · intro s s2 h
    cases s <;> simp [sm_finish] at h
    subst h
    rfl
  · intro s s2 h
    cases s <;> simp [sm_abort, SessionState.isTerminal] at h <;>
      (subst h; rfl)

/-- Claim C6 witness: a `Completed` session rejects `update` with
`IllegalStateTransition`, and a concrete `abort` from `Active` indeed
lands in a terminal state. -/
theorem terminal_session_ops_fail_witness :
    sm_update true SessionState.Completed =
      Except.error HalError.IllegalStateTransition ∧
    SessionState.isTerminal SessionState.Aborted = true := by
  have h := terminal_session_ops_fail true SessionState.Active
  exact ⟨(h.1 SessionState.Completed rfl).1,
    h.2.2 SessionState.Active SessionState.Aborted rfl⟩
